import Mathlib

/-!
# ADR-036 example server: sign and verify handlers

A shallow embedding of `main.go`.  The two HTTP handlers are embedded as
functions from a request to a run record: the state of the response writer, the
calls made to the SDK in the order they are made, and whether the handler
panicked.  The Cosmos SDK (`TxConfig`, `offchain.Signer`, `offchain.Verifier`,
`secp256k1`) and `encoding/json` are imported packages; their operations are the
fields of `Lib`, over which every definition is parametric.  The variable `x` of
`sign` is shared by all runs of the sign handler: a run takes its content, and what
other requests store into it between the accesses of the run, as arguments.
-/

namespace Adr036

/-- Go `string` and `[]byte` values: a sequence of byte values.  The conversions
`[]byte(s)` and `string(b)` copy the bytes unchanged, so one type serves both. -/
abbrev Bytes := List Nat

/-- The bytes of an ASCII string literal of the source. -/
def ascii (s : String) : Bytes := s.toList.map Char.toNat

/-- Source constant `headerContentTypeJSON`. -/
def headerContentTypeJSON : Bytes := ascii "application/json"

/-- Source constant `headerContentTypeProto`. -/
def headerContentTypeProto : Bytes := ascii "application/protobuf"

/-- `http.StatusBadRequest`. -/
def statusBadRequest : Nat := 400

/-- `http.StatusOK`, the status `net/http` sends when `Write` is called before any
`WriteHeader`. -/
def statusOK : Nat := 200

/-- Modelled from the spec: the declaration of `errors.Error` is not in the
source; section 6 describes it as a structured object with a code and a message. -/
structure SdkError where
  code : Nat
  message : Bytes
deriving DecidableEq, Repr

/-- A Go `error` value, split the way `writeError` splits it with the type
assertion `err.(errors.Error)`: either the dynamic type is `errors.Error`, or it is
any other type and only the string returned by `Error()` matters. -/
inductive GoError where
  | sdk (e : SdkError)
  | other (msg : Bytes)
deriving DecidableEq, Repr

/-- Modelled from the spec: an `sdk.Msg`.  The declaration of
`offchain.MsgSignData` is not in the source; section 3 describes a Message as a
declared signer address and a data payload, and `NewMsgSignData(addr, data)` builds
it from these two.  `other` stands for every other implementation of `sdk.Msg`. -/
inductive Msg where
  | signData (signer : Bytes) (data : Bytes)
  | other (tag : Nat)
deriving DecidableEq, Repr

/-- The struct `secp256k1.PrivKey{Key: ...}`, built by the sign handler with a
struct literal. -/
structure PrivKey where
  Key : Bytes
deriving DecidableEq, Repr

/-- The imported operations the handlers call.  `Tx` is the type behind the
interface `sdk.Tx`. -/
structure Lib (Tx : Type) where
  /-- `conf.TxConfig.TxJSONDecoder()` -/
  txJSONDecoder : Bytes → Except GoError Tx
  /-- `conf.TxConfig.TxDecoder()`, the binary (protobuf) decoder of `TxConfig` -/
  txDecoder : Bytes → Except GoError Tx
  /-- `conf.TxConfig.TxJSONEncoder()` -/
  txJSONEncoder : Tx → Except GoError Bytes
  /-- `tx.GetMsgs()` -/
  getMsgs : Tx → List Msg
  /-- `verifier.Verify(tx)`; `none` is a nil error -/
  verifierVerify : Tx → Option GoError
  /-- `signer.Sign(privKey, msgs)` -/
  signerSign : PrivKey → List Msg → Except GoError Tx
  /-- `privKey.PubKey()`, as the bytes of the public key -/
  pubKey : PrivKey → Bytes
  /-- `sdk.AccAddress(pubKey.Address())` -/
  address : Bytes → Bytes
  /-- `json.Marshal(sdkErr)` -/
  jsonMarshal : SdkError → Except GoError Bytes

/-- A call from a handler into the SDK. -/
inductive Call (Tx : Type) where
  | txJSONDecoder (b : Bytes)
  | txDecoder (b : Bytes)
  | verify (tx : Tx)
  | pubKey (k : PrivKey)
  | sign (k : PrivKey) (msgs : List Msg)
  | txJSONEncoder (tx : Tx)
deriving DecidableEq, Repr

/-- What an `http.ResponseWriter` has received: the status code once the header
is written, and the body bytes. -/
structure ResponseWriter where
  status : Option Nat
  body : Bytes
deriving DecidableEq, Repr

/-- The writer a handler is given: nothing written yet. -/
def ResponseWriter.fresh : ResponseWriter := ⟨none, []⟩

/-- `w.WriteHeader(code)`: the first call fixes the status, later calls are
ignored by `net/http`. -/
def ResponseWriter.writeHeader (w : ResponseWriter) (code : Nat) : ResponseWriter :=
  match w.status with
  | none => { w with status := some code }
  | some _ => w

/-- `w.Write(b)`: sends status 200 first when no header was written. -/
def ResponseWriter.write (w : ResponseWriter) (b : Bytes) : ResponseWriter :=
  { status := some (w.status.getD statusOK), body := w.body ++ b }

/-- The result of running a handler on one request. -/
structure Run (Tx : Type) where
  w : ResponseWriter
  calls : List (Call Tx)
  panicked : Bool

/-- Source function `writeError`.  Returns the writer and whether `panic(err)` was
reached. -/
def writeError {Tx : Type} (lib : Lib Tx) (w : ResponseWriter) (err : GoError) :
    ResponseWriter × Bool :=
  let w := w.writeHeader statusBadRequest
  match err with
  | .other msg => (w.write msg, false)
  | .sdk sdkErr =>
    match lib.jsonMarshal sdkErr with
    | .error _ => (w, true)
    | .ok b => (w.write b, false)

/-- The statement pair `writeError(writer, err); return` of a handler. -/
def failWith {Tx : Type} (lib : Lib Tx) (writer : ResponseWriter) (calls : List (Call Tx))
    (err : GoError) : Run Tx :=
  let r := writeError lib writer err
  { w := r.1, calls := calls, panicked := r.2 }

/-- A request as the verify handler reads it. -/
structure VerifyRequest where
  /-- the outcome of `ioutil.ReadAll(request.Body)` -/
  body : Except GoError Bytes
  /-- `request.Header.Get("Content-Type")`, empty when the header is absent -/
  contentType : Bytes

/-- The error `fmt.Errorf("unknown content type: %s", contentHeader)`; its dynamic
type is not `errors.Error`. -/
def unknownContentType (contentHeader : Bytes) : GoError :=
  .other (ascii "unknown content type: " ++ contentHeader)

/-- Source function `verify`: the handler it returns. -/
def verify {Tx : Type} (lib : Lib Tx) (request : VerifyRequest) : Run Tx :=
  let writer := ResponseWriter.fresh
  match request.body with
  | .error err => failWith lib writer [] err
  | .ok b =>
    let contentHeader := request.contentType
    let decoded : Option (Except GoError Tx) :=
      if contentHeader = headerContentTypeJSON then some (lib.txJSONDecoder b)
      else if contentHeader = headerContentTypeProto then some (lib.txJSONDecoder b)
      else none
    match decoded with
    | none => failWith lib writer [] (unknownContentType contentHeader)
    | some (.error err) => failWith lib writer [.txJSONDecoder b] err
    | some (.ok tx) =>
      match lib.verifierVerify tx with
      | some err => failWith lib writer [.txJSONDecoder b, .verify tx] err
      | none =>
        match lib.getMsgs tx with
        | Msg.signData _ data :: _ =>
          { w := writer.write (ascii "valid data:" ++ data),
            calls := [.txJSONDecoder b, .verify tx], panicked := false }
        | _ => { w := writer, calls := [.txJSONDecoder b, .verify tx], panicked := true }

/-- The variable `x` of `sign`, declared outside the returned handler and captured
by it. -/
structure SignFields where
  PrivateKey : Bytes
  Data : Bytes
deriving DecidableEq, Repr

/-- The zero value of `x`, its content when the handler is created. -/
def SignFields.zero : SignFields := ⟨[], []⟩

/-- A request body as `json.NewDecoder(request.Body).Decode(&x)` sees it: the value
it stores for each of the two keys that the body carries, and the error it
returns. -/
structure SignRequest where
  private_key : Option Bytes
  data : Option Bytes
  err : Option GoError
deriving DecidableEq, Repr

/-- `json.Decoder.Decode` into a struct: a field whose key is in the body is set,
a field whose key is absent keeps the value it had. -/
def decodeInto (x : SignFields) (request : SignRequest) : Option GoError × SignFields :=
  (request.err,
   { PrivateKey := request.private_key.getD x.PrivateKey,
     Data := request.data.getD x.Data })

/-- Lines 90 to 104 of `sign`: what the handler does once the request body is
decoded into `x`. -/
def signDecoded {Tx : Type} (lib : Lib Tx) (x : SignFields) : Run Tx :=
  let writer := ResponseWriter.fresh
  let privKey : PrivKey := { Key := x.PrivateKey }
  let msgs := [Msg.signData (lib.address (lib.pubKey privKey)) x.Data]
  match lib.signerSign privKey msgs with
  | .error err => failWith lib writer [.pubKey privKey, .sign privKey msgs] err
  | .ok signedTx =>
    match lib.txJSONEncoder signedTx with
    | .error err =>
      failWith lib writer [.pubKey privKey, .sign privKey msgs, .txJSONEncoder signedTx] err
    | .ok b =>
      { w := writer.write b,
        calls := [.pubKey privKey, .sign privKey msgs, .txJSONEncoder signedTx],
        panicked := false }

/-- What the `Decode` calls of other requests store into the shared `x` while one
run of the sign handler is between two of its own accesses of `x`.  The handler is
served by `net/http` on one goroutine per connection and `x` is not synchronised;
a run accesses `x` three times: `Decode(&x)` on line 85, the read of
`x.PrivateKey` on line 90 and the read of `x.Data` on line 92.  Each element is the
part of another request's `Decode` that lands at that point. -/
structure Interference where
  /-- stores that land after line 85 and before the read on line 90 -/
  beforeKeyRead : List SignRequest
  /-- stores that land after the read on line 90 and before the read on line 92 -/
  beforeDataRead : List SignRequest
deriving DecidableEq, Repr

/-- No other request touches `x` during the run: the handler runs alone. -/
def Interference.none : Interference := ⟨[], []⟩

/-- The content of `x` after the stores of `others` have landed, in order. -/
def interfere (x : SignFields) (others : List SignRequest) : SignFields :=
  others.foldl (fun x r => (decodeInto x r).2) x

/-- The content of `x` when a run that started with `x` reads `x.PrivateKey` on
line 90. -/
def atKeyRead (x : SignFields) (request : SignRequest) (env : Interference) : SignFields :=
  interfere (decodeInto x request).2 env.beforeKeyRead

/-- The content of `x` when that run reads `x.Data` on line 92. -/
def atDataRead (x : SignFields) (request : SignRequest) (env : Interference) : SignFields :=
  interfere (atKeyRead x request env) env.beforeDataRead

/-- The two values a run reads from `x`: the key on line 90, the data on line 92. -/
def seen (x : SignFields) (request : SignRequest) (env : Interference) : SignFields :=
  { PrivateKey := (atKeyRead x request env).PrivateKey,
    Data := (atDataRead x request env).Data }

/-- Source function `sign`: one run of the handler it returns.  The captured
variable `x` is passed in and out, and `env` gives what other requests store into
it between the accesses of this run. -/
def sign {Tx : Type} (lib : Lib Tx) (x : SignFields) (request : SignRequest)
    (env : Interference) : Run Tx × SignFields :=
  let d := decodeInto x request
  match d.1 with
  | some err => (failWith lib ResponseWriter.fresh [] err, d.2)
  | none => (signDecoded lib (seen x request env), atDataRead x request env)

/-- The content of `x` after the handler has served the requests of `history`, one
after the other, starting from `x`. -/
def stateAfter {Tx : Type} (lib : Lib Tx) (x : SignFields) : List SignRequest → SignFields
  | [] => x
  | r :: rest => stateAfter lib (sign lib x r Interference.none).2 rest

/-- The run of the sign handler on `request`, alone, after it has served `history`
since it was created. -/
def signAfter {Tx : Type} (lib : Lib Tx) (history : List SignRequest) (request : SignRequest) :
    Run Tx :=
  (sign lib (stateAfter lib SignFields.zero history) request Interference.none).1

/-- The calls to `signer.Sign` among `calls`, with their arguments. -/
def signCalls {Tx : Type} (calls : List (Call Tx)) : List (PrivKey × List Msg) :=
  calls.filterMap fun c =>
    match c with
    | .sign k msgs => some (k, msgs)
    | _ => none

/-- The four conditions under which the verify handler reaches its last
statement: the body was read, the content type is one of the two constants, the
decoder the handler calls returned a tx, and `verifier.Verify` returned nil. -/
def verifyConditions {Tx : Type} (lib : Lib Tx) (request : VerifyRequest) : Prop :=
  ∃ b tx, request.body = .ok b ∧
    (request.contentType = headerContentTypeJSON ∨
      request.contentType = headerContentTypeProto) ∧
    lib.txJSONDecoder b = .ok tx ∧ lib.verifierVerify tx = none

/-- Modelled from the spec: the codec is an imported package; section 8
(round-trip) makes the JSON decoder the inverse of the JSON encoder on every
envelope the encoder accepts. -/
def RoundTripJSON {Tx : Type} (lib : Lib Tx) : Prop :=
  ∀ tx b, lib.txJSONEncoder tx = .ok b → lib.txJSONDecoder b = .ok tx

/-- Modelled from the spec: the signer and the verifier are imported packages;
section 8 (sign-then-verify) says that for a valid identity (a key of the fixed
size, 32 bytes), the address of that identity and non-empty data, what the signer
returns is accepted by the verifier and still carries the one message it was
given. -/
def SignThenVerify {Tx : Type} (lib : Lib Tx) : Prop :=
  ∀ (k : PrivKey) (d : Bytes) (tx : Tx), k.Key.length = 32 → d ≠ [] →
    lib.signerSign k [Msg.signData (lib.address (lib.pubKey k)) d] = .ok tx →
    lib.verifierVerify tx = none ∧
      lib.getMsgs tx = [Msg.signData (lib.address (lib.pubKey k)) d]

/-- Modelled from the spec: the verifier is an imported package; section 4.5
step 1 has it reject every envelope that does not hold exactly one Message, so an
accepted tx starts with a `MsgSignData`. -/
def VerifierChecksMessage {Tx : Type} (lib : Lib Tx) : Prop :=
  ∀ tx, lib.verifierVerify tx = none →
    ∃ a d rest, lib.getMsgs tx = Msg.signData a d :: rest

/-- Modelled from the spec: the signer is an imported package; sections 4.3 and
4.4 step 1 have it fail (`EmptyPayload`) on a Message whose data is empty. -/
def SignerRejectsEmpty {Tx : Type} (lib : Lib Tx) : Prop :=
  ∀ (k : PrivKey) (a : Bytes), ∃ e, lib.signerSign k [Msg.signData a []] = .error e

/-- A small executable instance of `Lib`, used to evaluate the handlers on
concrete requests.  A tx is two address bytes followed by the data; its JSON form
is the tx behind an opening brace (byte 123), its binary form is the tx itself. -/
def toyLib : Lib Bytes where
  txJSONDecoder := fun b =>
    match b with
    | 123 :: t => .ok t
    | _ => .error (.other (ascii "not json"))
  txDecoder := fun b => .ok b
  txJSONEncoder := fun tx => .ok (123 :: tx)
  getMsgs := fun tx => [Msg.signData (tx.take 2) (tx.drop 2)]
  verifierVerify := fun tx =>
    if tx.length ≤ 2 then some (.sdk ⟨2, ascii "malformed"⟩) else none
  signerSign := fun _ msgs =>
    match msgs with
    | [Msg.signData a d] =>
      if a.length = 2 ∧ d ≠ [] then .ok (a ++ d) else .error (.sdk ⟨1, ascii "empty"⟩)
    | _ => .error (.other (ascii "one message"))
  pubKey := fun k => k.Key
  address := fun pk => [pk.length, pk.headD 0]
  jsonMarshal := fun e => .ok (123 :: e.code :: e.message)

/-- A 32-byte private key for the concrete runs. -/
def key32 : Bytes := List.replicate 32 7

/-- A 31-byte private key for the concrete runs. -/
def key31 : Bytes := List.replicate 31 7

/-- The 32-byte private key of a second client for the concrete runs. -/
def otherKey32 : Bytes := List.replicate 32 9

/-! ## Lemmas on the response writer and on `writeError` -/

theorem writeError_status {Tx : Type} (lib : Lib Tx) (w : ResponseWriter) (err : GoError)
    (hw : w.status = none) : (writeError lib w err).1.status = some statusBadRequest := by
  cases err with
  | other msg => simp [writeError, ResponseWriter.writeHeader, ResponseWriter.write, hw]
  | sdk e =>
    simp only [writeError, ResponseWriter.writeHeader, hw]
    cases lib.jsonMarshal e <;> simp [ResponseWriter.write]

theorem failWith_status {Tx : Type} (lib : Lib Tx) (calls : List (Call Tx)) (err : GoError) :
    (failWith lib ResponseWriter.fresh calls err).w.status = some statusBadRequest := by
  simp [failWith, writeError_status lib ResponseWriter.fresh err rfl]

theorem toyLib_roundTrip : RoundTripJSON toyLib := by
  intro tx b h
  simp only [toyLib, Except.ok.injEq] at h
  subst h
  rfl

theorem toyLib_signThenVerify : SignThenVerify toyLib := by
  intro k d tx _ hd h
  have hd2 : 0 < d.length := List.length_pos.mpr hd
  simp only [toyLib, List.length_cons, List.length_nil, hd, ne_eq, not_false_eq_true,
    and_self, if_true, Except.ok.injEq] at h
  subst h
  simp only [toyLib]
  refine ⟨?_, ?_⟩
  · have : ¬ ([k.Key.length, k.Key.headD 0] ++ d).length ≤ 2 := by
      simp only [List.length_append, List.length_cons, List.length_nil]
      omega
    simp only [this, if_false]
  · rfl

theorem toyLib_verifierChecks : VerifierChecksMessage toyLib := by
  intro tx _
  exact ⟨_, _, [], rfl⟩

theorem toyLib_rejectsEmpty : SignerRejectsEmpty toyLib := by
  intro k a
  exact ⟨.sdk ⟨1, ascii "empty"⟩, by simp [toyLib]⟩

/-! ## The verify handler -/

theorem verify_read_error {Tx : Type} (lib : Lib Tx) (ct : Bytes) (err : GoError) :
    verify lib ⟨.error err, ct⟩ = failWith lib ResponseWriter.fresh [] err := rfl

theorem verify_unknown {Tx : Type} (lib : Lib Tx) (b ct : Bytes)
    (h1 : ct ≠ headerContentTypeJSON) (h2 : ct ≠ headerContentTypeProto) :
    verify lib ⟨.ok b, ct⟩ = failWith lib ResponseWriter.fresh [] (unknownContentType ct) := by
  simp [verify, h1, h2]

theorem verify_known {Tx : Type} (lib : Lib Tx) (b ct : Bytes)
    (h : ct = headerContentTypeJSON ∨ ct = headerContentTypeProto) :
    verify lib ⟨.ok b, ct⟩ =
      match lib.txJSONDecoder b with
      | .error err => failWith lib ResponseWriter.fresh [.txJSONDecoder b] err
      | .ok tx =>
        match lib.verifierVerify tx with
        | some err => failWith lib ResponseWriter.fresh [.txJSONDecoder b, .verify tx] err
        | none =>
          match lib.getMsgs tx with
          | Msg.signData _ data :: _ =>
            { w := ResponseWriter.fresh.write (ascii "valid data:" ++ data),
              calls := [.txJSONDecoder b, .verify tx], panicked := false }
          | _ => { w := ResponseWriter.fresh, calls := [.txJSONDecoder b, .verify tx],
                   panicked := true } := by
  have hd : (if ct = headerContentTypeJSON then some (lib.txJSONDecoder b)
      else if ct = headerContentTypeProto then some (lib.txJSONDecoder b)
      else none) = some (lib.txJSONDecoder b) := by
    rcases h with h | h
    · simp [h]
    · simp [h]
  simp only [verify, hd]
  cases lib.txJSONDecoder b <;> rfl

theorem verify_of_conditions {Tx : Type} (lib : Lib Tx) (request : VerifyRequest) (b : Bytes)
    (tx : Tx) (hb : request.body = .ok b)
    (hc : request.contentType = headerContentTypeJSON ∨
      request.contentType = headerContentTypeProto)
    (hd : lib.txJSONDecoder b = .ok tx) (hv : lib.verifierVerify tx = none) :
    verify lib request =
      match lib.getMsgs tx with
      | Msg.signData _ data :: _ =>
        { w := ⟨some statusOK, ascii "valid data:" ++ data⟩,
          calls := [.txJSONDecoder b, .verify tx], panicked := false }
      | _ => { w := ResponseWriter.fresh, calls := [.txJSONDecoder b, .verify tx],
               panicked := true } := by
  obtain ⟨body, ct⟩ := request
  simp only at hb hc
  subst hb
  rw [verify_known lib b ct hc]
  simp only [hd, hv]
  cases lib.getMsgs tx with
  | nil => rfl
  | cons m rest =>
    cases m with
    | signData a d =>
      simp [ResponseWriter.write, ResponseWriter.fresh]
    | other t => rfl

theorem verify_fail {Tx : Type} (lib : Lib Tx) (request : VerifyRequest)
    (h : ¬ verifyConditions lib request) :
    ∃ calls e, verify lib request = failWith lib ResponseWriter.fresh calls e := by
  obtain ⟨body, ct⟩ := request
  cases body with
  | error err => exact ⟨[], err, rfl⟩
  | ok b =>
    by_cases hc : ct = headerContentTypeJSON ∨ ct = headerContentTypeProto
    · rw [verify_known lib b ct hc]
      cases hd : lib.txJSONDecoder b with
      | error err => exact ⟨[.txJSONDecoder b], err, rfl⟩
      | ok tx =>
        dsimp only
        cases hv : lib.verifierVerify tx with
        | some err => exact ⟨[.txJSONDecoder b, .verify tx], err, rfl⟩
        | none => exact absurd ⟨b, tx, rfl, hc, hd, hv⟩ h
    · rw [not_or] at hc
      exact ⟨[], _, verify_unknown lib b ct hc.1 hc.2⟩

theorem verify_proto_eq_json {Tx : Type} (lib : Lib Tx) (b : Bytes) :
    verify lib ⟨.ok b, headerContentTypeProto⟩ = verify lib ⟨.ok b, headerContentTypeJSON⟩ := by
  rw [verify_known lib b _ (Or.inr rfl), verify_known lib b _ (Or.inl rfl)]

/-! ## The sign handler -/

theorem seen_none (x : SignFields) (request : SignRequest) :
    seen x request Interference.none = (decodeInto x request).2 := rfl

theorem sign_decoded {Tx : Type} (lib : Lib Tx) (x : SignFields) (request : SignRequest)
    (env : Interference) (h : request.err = none) :
    sign lib x request env = (signDecoded lib (seen x request env), atDataRead x request env) := by
  have h1 : (decodeInto x request).1 = none := h
  simp only [sign, h1]

theorem sign_decode_error {Tx : Type} (lib : Lib Tx) (x : SignFields) (request : SignRequest)
    (env : Interference) (err : GoError) (h : request.err = some err) :
    sign lib x request env
      = (failWith lib ResponseWriter.fresh [] err, (decodeInto x request).2) := by
  have h1 : (decodeInto x request).1 = some err := h
  simp only [sign, h1]

theorem signDecoded_sign_error {Tx : Type} (lib : Lib Tx) (x : SignFields) (err : GoError)
    (h : lib.signerSign ⟨x.PrivateKey⟩
      [Msg.signData (lib.address (lib.pubKey ⟨x.PrivateKey⟩)) x.Data] = .error err) :
    signDecoded lib x = failWith lib ResponseWriter.fresh
      [.pubKey ⟨x.PrivateKey⟩,
       .sign ⟨x.PrivateKey⟩ [Msg.signData (lib.address (lib.pubKey ⟨x.PrivateKey⟩)) x.Data]]
      err := by
  simp only [signDecoded, h]

theorem signDecoded_encode_error {Tx : Type} (lib : Lib Tx) (x : SignFields) (tx : Tx)
    (err : GoError)
    (h : lib.signerSign ⟨x.PrivateKey⟩
      [Msg.signData (lib.address (lib.pubKey ⟨x.PrivateKey⟩)) x.Data] = .ok tx)
    (he : lib.txJSONEncoder tx = .error err) :
    signDecoded lib x = failWith lib ResponseWriter.fresh
      [.pubKey ⟨x.PrivateKey⟩,
       .sign ⟨x.PrivateKey⟩ [Msg.signData (lib.address (lib.pubKey ⟨x.PrivateKey⟩)) x.Data],
       .txJSONEncoder tx] err := by
  simp only [signDecoded, h, he]

theorem signDecoded_ok {Tx : Type} (lib : Lib Tx) (x : SignFields) (tx : Tx) (b : Bytes)
    (h : lib.signerSign ⟨x.PrivateKey⟩
      [Msg.signData (lib.address (lib.pubKey ⟨x.PrivateKey⟩)) x.Data] = .ok tx)
    (he : lib.txJSONEncoder tx = .ok b) :
    signDecoded lib x =
      { w := ⟨some statusOK, b⟩,
        calls := [.pubKey ⟨x.PrivateKey⟩,
          .sign ⟨x.PrivateKey⟩ [Msg.signData (lib.address (lib.pubKey ⟨x.PrivateKey⟩)) x.Data],
          .txJSONEncoder tx],
        panicked := false } := by
  simp only [signDecoded, h, he, ResponseWriter.write, ResponseWriter.fresh, Option.getD_none,
    List.nil_append]

theorem signCalls_signDecoded {Tx : Type} (lib : Lib Tx) (x : SignFields) :
    signCalls (signDecoded lib x).calls
      = [(⟨x.PrivateKey⟩, [Msg.signData (lib.address (lib.pubKey ⟨x.PrivateKey⟩)) x.Data])] := by
  cases hs : lib.signerSign ⟨x.PrivateKey⟩
      [Msg.signData (lib.address (lib.pubKey ⟨x.PrivateKey⟩)) x.Data] with
  | error e =>
    rw [signDecoded_sign_error lib x e hs]
    simp [signCalls, failWith]
  | ok tx =>
    cases he : lib.txJSONEncoder tx with
    | error e =>
      rw [signDecoded_encode_error lib x tx e hs he]
      simp [signCalls, failWith]
    | ok b =>
      rw [signDecoded_ok lib x tx b hs he]
      simp [signCalls]

theorem sign_absent_key_uses_state {Tx : Type} (lib : Lib Tx) (x : SignFields)
    (data : Option Bytes) :
    signCalls (sign lib x ⟨none, data, none⟩ Interference.none).1.calls
      = [(⟨x.PrivateKey⟩,
          [Msg.signData (lib.address (lib.pubKey ⟨x.PrivateKey⟩)) (data.getD x.Data)])] := by
  rw [sign_decoded lib x _ _ rfl, signCalls_signDecoded]
  rfl

theorem sign_state_keeps_key {Tx : Type} (lib : Lib Tx) (x : SignFields) (K : Bytes)
    (data : Option Bytes) (err : Option GoError) :
    (sign lib x ⟨some K, data, err⟩ Interference.none).2.PrivateKey = K := by
  cases err <;> rfl

theorem sign_interleaved_uses_other {Tx : Type} (lib : Lib Tx) (x : SignFields)
    (K d K0 d0 : Bytes) :
    signCalls (sign lib x ⟨some K, some d, none⟩ ⟨[⟨some K0, some d0, none⟩], []⟩).1.calls
      = [(⟨K0⟩, [Msg.signData (lib.address (lib.pubKey ⟨K0⟩)) d0])] := by
  rw [sign_decoded lib x _ _ rfl, signCalls_signDecoded]
  rfl

theorem verify_panicked_iff {Tx : Type} (lib : Lib Tx) (request : VerifyRequest)
    (hM : ∀ e, ∃ b, lib.jsonMarshal e = .ok b) :
    (verify lib request).panicked = true ↔
      ∃ b tx, request.body = .ok b ∧
        (request.contentType = headerContentTypeJSON ∨
          request.contentType = headerContentTypeProto) ∧
        lib.txJSONDecoder b = .ok tx ∧ lib.verifierVerify tx = none ∧
        ∀ a d rest, lib.getMsgs tx ≠ Msg.signData a d :: rest := by
  have hfw : ∀ calls e, (failWith lib ResponseWriter.fresh calls e).panicked = false := by
    intro calls e
    cases e with
    | other msg => rfl
    | sdk s =>
      obtain ⟨b, hb⟩ := hM s
      simp [failWith, writeError, hb]
  by_cases hc : verifyConditions lib request
  · obtain ⟨b, tx, hb, hk, hd, hv⟩ := hc
    rw [verify_of_conditions lib request b tx hb hk hd hv]
    constructor
    · intro hp
      refine ⟨b, tx, hb, hk, hd, hv, ?_⟩
      intro a d rest hm
      rw [hm] at hp
      simp at hp
    · rintro ⟨b0, tx0, hb0, _, hd0, _, hm0⟩
      have e1 : b0 = b := by rw [hb] at hb0; cases hb0; rfl
      subst e1
      have e2 : tx0 = tx := by rw [hd] at hd0; cases hd0; rfl
      subst e2
      cases hm : lib.getMsgs tx0 with
      | nil => rfl
      | cons m rest =>
        cases m with
        | signData a d => exact absurd hm (hm0 a d rest)
        | other t => rfl
  · obtain ⟨calls, e, he⟩ := verify_fail lib request hc
    rw [he, hfw]
    constructor
    · intro h; cases h
    · rintro ⟨b, tx, hb, hk, hd, hv, _⟩
      exact absurd ⟨b, tx, hb, hk, hd, hv⟩ hc

theorem signCalls_sign {Tx : Type} (lib : Lib Tx) (x : SignFields) (request : SignRequest)
    (env : Interference) (h : request.err = none) :
    signCalls (sign lib x request env).1.calls
      = [(⟨(seen x request env).PrivateKey⟩,
          [Msg.signData (lib.address (lib.pubKey ⟨(seen x request env).PrivateKey⟩))
            (seen x request env).Data])] := by
  rw [sign_decoded lib x request env h, signCalls_signDecoded]

theorem sign_then_verify_alone {Tx : Type} (lib : Lib Tx) (hRT : RoundTripJSON lib)
    (hSV : SignThenVerify lib) (x : SignFields) (K d b : Bytes) (hK : K.length = 32)
    (hd : d ≠ [])
    (hb : (sign lib x ⟨some K, some d, none⟩ Interference.none).1.w = ⟨some statusOK, b⟩) :
    (verify lib ⟨.ok b, headerContentTypeJSON⟩).w
        = ⟨some statusOK, ascii "valid data:" ++ d⟩ ∧
      (verify lib ⟨.ok b, headerContentTypeJSON⟩).panicked = false := by
  rw [sign_decoded lib x _ _ rfl, seen_none] at hb
  simp only [decodeInto, Option.getD_some] at hb
  cases hs : lib.signerSign ⟨K⟩ [Msg.signData (lib.address (lib.pubKey ⟨K⟩)) d] with
  | error e =>
    rw [signDecoded_sign_error lib ⟨K, d⟩ e hs] at hb
    have h400 := failWith_status lib
      [.pubKey ⟨K⟩, .sign ⟨K⟩ [Msg.signData (lib.address (lib.pubKey ⟨K⟩)) d]] e
    rw [hb] at h400
    simp [statusOK, statusBadRequest] at h400
  | ok tx =>
    cases he : lib.txJSONEncoder tx with
    | error e =>
      rw [signDecoded_encode_error lib ⟨K, d⟩ tx e hs he] at hb
      have h400 := failWith_status lib
        [.pubKey ⟨K⟩, .sign ⟨K⟩ [Msg.signData (lib.address (lib.pubKey ⟨K⟩)) d],
          .txJSONEncoder tx] e
      rw [hb] at h400
      simp [statusOK, statusBadRequest] at h400
    | ok b0 =>
      rw [signDecoded_ok lib ⟨K, d⟩ tx b0 hs he] at hb
      simp only [ResponseWriter.mk.injEq, true_and] at hb
      subst hb
      obtain ⟨hv, hm⟩ := hSV ⟨K⟩ d tx hK hd hs
      rw [verify_known lib b0 _ (Or.inl rfl), hRT tx b0 he]
      simp only [hv, hm]
      simp [ResponseWriter.write, ResponseWriter.fresh]

theorem sign_rejects_empty_alone {Tx : Type} (lib : Lib Tx) (hE : SignerRejectsEmpty lib)
    (x : SignFields) (request : SignRequest) (hd : request.data = some []) :
    (sign lib x request Interference.none).1.w.status = some statusBadRequest := by
  cases herr : request.err with
  | some err =>
    rw [sign_decode_error lib x request _ err herr]
    exact failWith_status lib [] err
  | none =>
    rw [sign_decoded lib x request _ herr, seen_none]
    have hdata : (decodeInto x request).2.Data = [] := by simp [decodeInto, hd]
    obtain ⟨e, he⟩ := hE ⟨(decodeInto x request).2.PrivateKey⟩
      (lib.address (lib.pubKey ⟨(decodeInto x request).2.PrivateKey⟩))
    have hs : lib.signerSign ⟨(decodeInto x request).2.PrivateKey⟩
        [Msg.signData (lib.address (lib.pubKey ⟨(decodeInto x request).2.PrivateKey⟩))
          (decodeInto x request).2.Data] = .error e := by rw [hdata]; exact he
    rw [signDecoded_sign_error lib _ e hs]
    exact failWith_status lib _ e

/-! ## The claims -/

/-- C1 (the code departs from the claim): the round trip fails when another
request's `Decode` lands between this request's `Decode` (line 85) and its read of
`x` (line 90).  In the toy library, whose codec round-trips and whose verifier
accepts what its signer returns, the request carrying a 32-byte key and the data
"hello" is answered with status 200 and an envelope for the other request's data;
the verify handler given that body as application/json answers
"valid data:other", not "valid data:hello". -/
theorem c1_round_trip_broken_by_shared_x :
    RoundTripJSON toyLib ∧ SignThenVerify toyLib ∧ key32.length = 32 ∧ ascii "hello" ≠ [] ∧
    (sign toyLib SignFields.zero ⟨some key32, some (ascii "hello"), none⟩
        ⟨[⟨some otherKey32, some (ascii "other"), none⟩], []⟩).1.w
      = ⟨some statusOK, 123 :: 32 :: 9 :: ascii "other"⟩ ∧
    (verify toyLib ⟨.ok (123 :: 32 :: 9 :: ascii "other"), headerContentTypeJSON⟩).w
      = ⟨some statusOK, ascii "valid data:" ++ ascii "other"⟩ ∧
    (verify toyLib ⟨.ok (123 :: 32 :: 9 :: ascii "other"), headerContentTypeJSON⟩).w
      ≠ ⟨some statusOK, ascii "valid data:" ++ ascii "hello"⟩ :=
  ⟨toyLib_roundTrip, toyLib_signThenVerify, by decide, by decide, by decide, by decide,
    by decide⟩

/-- C2: the verify handler never downgrades a failure to "valid".  For a library
whose verifier accepts only a tx that starts with a `MsgSignData`, and for every
request: the response is status 200 with body "valid data:" followed by the Data
of the first message of the decoded tx if and only if the body was read, the
content type is a recognised one, the decoder returned no error and
`verifier.Verify` returned no error; in every other case the handler has done
`writeError(writer, e); return` for some error `e`, the status is 400, and the
response is not status 200 with a "valid data:" body. -/
theorem c2_verify_never_downgrades {Tx : Type} (lib : Lib Tx)
    (hV : VerifierChecksMessage lib) (request : VerifyRequest) :
    ((∃ b tx a d rest, request.body = .ok b ∧ lib.txJSONDecoder b = .ok tx ∧
        lib.getMsgs tx = Msg.signData a d :: rest ∧
        (verify lib request).w = ⟨some statusOK, ascii "valid data:" ++ d⟩) ↔
      verifyConditions lib request) ∧
    (¬ verifyConditions lib request →
      (∃ calls e, verify lib request = failWith lib ResponseWriter.fresh calls e) ∧
      (verify lib request).w.status = some statusBadRequest ∧
      ∀ d, (verify lib request).w ≠ ⟨some statusOK, ascii "valid data:" ++ d⟩) := by
  have hfail : ¬ verifyConditions lib request →
      (∃ calls e, verify lib request = failWith lib ResponseWriter.fresh calls e) ∧
      (verify lib request).w.status = some statusBadRequest ∧
      ∀ d, (verify lib request).w ≠ ⟨some statusOK, ascii "valid data:" ++ d⟩ := by
    intro h
    obtain ⟨calls, e, he⟩ := verify_fail lib request h
    have hs : (verify lib request).w.status = some statusBadRequest := by
      rw [he]; exact failWith_status lib calls e
    refine ⟨⟨calls, e, he⟩, hs, ?_⟩
    intro d hd
    rw [hd] at hs
    simp [statusOK, statusBadRequest] at hs
  refine ⟨⟨?_, ?_⟩, hfail⟩
  · rintro ⟨b, tx, a, d, rest, _, _, _, hw⟩
    by_contra hc
    exact (hfail hc).2.2 d hw
  · rintro ⟨b, tx, hb, hc, hd, hv⟩
    obtain ⟨a, d, rest, hm⟩ := hV tx hv
    refine ⟨b, tx, a, d, rest, hb, hd, hm, ?_⟩
    rw [verify_of_conditions lib request b tx hb hc hd hv, hm]

/-- C2 at a concrete input: the toy library and the JSON form of the tx with
address bytes 32, 7 and data "hello". -/
theorem c2_verify_never_downgrades_witness :
    VerifierChecksMessage toyLib ∧
    (verify toyLib ⟨.ok (123 :: 32 :: 7 :: ascii "hello"), headerContentTypeJSON⟩).w
      = ⟨some statusOK, ascii "valid data:" ++ ascii "hello"⟩ ∧
    verifyConditions toyLib ⟨.ok (123 :: 32 :: 7 :: ascii "hello"), headerContentTypeJSON⟩ :=
  ⟨toyLib_verifierChecks, by decide,
    (c2_verify_never_downgrades toyLib toyLib_verifierChecks
      ⟨.ok (123 :: 32 :: 7 :: ascii "hello"), headerContentTypeJSON⟩).1.mp
      ⟨123 :: 32 :: 7 :: ascii "hello", 32 :: 7 :: ascii "hello", [32, 7], ascii "hello", [],
        rfl, rfl, rfl, by decide⟩⟩

/-- C3 (the code departs from the claim): a body in the binary form, sent with
Content-Type application/protobuf, is handed to the JSON decoder.  In the toy
library the binary decoder reads the body as a tx the verifier accepts, yet the
handler calls only `TxJSONDecoder`, which rejects it, and answers status 400 with
that decoder's error; the run is the same as with Content-Type application/json. -/
theorem c3_protobuf_routed_to_json_decoder :
    (∃ tx, toyLib.txDecoder (32 :: 7 :: ascii "hello") = .ok tx ∧
      toyLib.verifierVerify tx = none) ∧
    (verify toyLib ⟨.ok (32 :: 7 :: ascii "hello"), headerContentTypeProto⟩).calls
      = [.txJSONDecoder (32 :: 7 :: ascii "hello")] ∧
    (verify toyLib ⟨.ok (32 :: 7 :: ascii "hello"), headerContentTypeProto⟩).w
      = ⟨some statusBadRequest, ascii "not json"⟩ ∧
    verify toyLib ⟨.ok (32 :: 7 :: ascii "hello"), headerContentTypeProto⟩
      = verify toyLib ⟨.ok (32 :: 7 :: ascii "hello"), headerContentTypeJSON⟩ :=
  ⟨⟨32 :: 7 :: ascii "hello", rfl, by decide⟩, by decide, by decide,
    verify_proto_eq_json toyLib _⟩

/-- C4 (as stated, refuted): a request with Content-Type text/plain whose body
cannot be read.  The read error is reported before the content type is looked at,
so the response body is the read error and not "unknown content type: text/plain". -/
theorem c4_unread_body_counterexample :
    ascii "text/plain" ≠ headerContentTypeJSON ∧ ascii "text/plain" ≠ headerContentTypeProto ∧
    (verify toyLib ⟨.error (.other (ascii "unexpected EOF")), ascii "text/plain"⟩).w
      = ⟨some statusBadRequest, ascii "unexpected EOF"⟩ ∧
    (verify toyLib ⟨.error (.other (ascii "unexpected EOF")), ascii "text/plain"⟩).w.body
      ≠ ascii "unknown content type: " ++ ascii "text/plain" :=
  ⟨by decide, by decide, by decide, by decide⟩

/-- C4 (amended): the verify handler fails closed on an unrecognised content
type.  For every request whose Content-Type is neither "application/json" nor
"application/protobuf" (the empty header included): the status is 400 and neither
a decoder nor the verifier is called; and when the body was read without error,
whatever bytes `b` it holds, the response body is "unknown content type: "
followed by the header value, written without a panic. -/
theorem c4_unknown_content_type_fails_closed {Tx : Type} (lib : Lib Tx)
    (request : VerifyRequest) (h1 : request.contentType ≠ headerContentTypeJSON)
    (h2 : request.contentType ≠ headerContentTypeProto) :
    (verify lib request).w.status = some statusBadRequest ∧
    (verify lib request).calls = [] ∧
    ∀ b, request.body = .ok b →
      (verify lib request).w
        = ⟨some statusBadRequest, ascii "unknown content type: " ++ request.contentType⟩ ∧
      (verify lib request).panicked = false := by
  obtain ⟨body, ct⟩ := request
  simp only at h1 h2
  cases body with
  | error err =>
    refine ⟨failWith_status lib [] err, rfl, ?_⟩
    intro b hb
    cases hb
  | ok b =>
    rw [verify_unknown lib b ct h1 h2]
    refine ⟨failWith_status lib [] _, rfl, ?_⟩
    intro b0 _
    simp [failWith, writeError, unknownContentType, ResponseWriter.fresh,
      ResponseWriter.writeHeader, ResponseWriter.write]

/-- C4 at concrete inputs: a signed body sent with Content-Type text/plain. -/
theorem c4_unknown_content_type_fails_closed_witness :
    ascii "text/plain" ≠ headerContentTypeJSON ∧ ascii "text/plain" ≠ headerContentTypeProto ∧
    (verify toyLib ⟨.ok (123 :: 32 :: 7 :: ascii "hello"), ascii "text/plain"⟩).w
      = ⟨some statusBadRequest, ascii "unknown content type: " ++ ascii "text/plain"⟩ ∧
    (verify toyLib ⟨.ok (123 :: 32 :: 7 :: ascii "hello"), ascii "text/plain"⟩).calls = [] :=
  ⟨by decide, by decide,
    ((c4_unknown_content_type_fails_closed toyLib
      ⟨.ok (123 :: 32 :: 7 :: ascii "hello"), ascii "text/plain"⟩ (by decide) (by decide)).2.2
      _ rfl).1,
    (c4_unknown_content_type_fails_closed toyLib
      ⟨.ok (123 :: 32 :: 7 :: ascii "hello"), ascii "text/plain"⟩ (by decide) (by decide)).2.1⟩

/-- C5 (as stated, refuted): a request with a private key of 31 bytes, served
alone.  It is not the case that the sign handler answers status 400 having neither
derived the public key nor called `signer.Sign`: the public key of the 31-byte key
is derived and `signer.Sign` is called with that key. -/
theorem c5_bad_key_length_counterexample :
    key31.length = 31 ∧
    ¬ ((sign toyLib SignFields.zero ⟨some key31, some (ascii "hello"), none⟩
          Interference.none).1.w.status = some statusBadRequest ∧
        (∀ k, Call.pubKey k ∉
          (sign toyLib SignFields.zero ⟨some key31, some (ascii "hello"), none⟩
            Interference.none).1.calls) ∧
        (∀ k msgs, Call.sign k msgs ∉
          (sign toyLib SignFields.zero ⟨some key31, some (ascii "hello"), none⟩
            Interference.none).1.calls)) :=
  ⟨by decide, fun h => h.2.1 ⟨key31⟩ (by decide)⟩

/-- C5 (amended): the sign handler does not look at the length of the key.  For
every library, every content of the shared variable, whatever other requests store
into it in between, and every request that decodes: the handler derives the public key of the
key bytes it reads on line 90, whatever their length, and calls `signer.Sign`
exactly once, with that key and the one message built from it; it answers status
400 exactly when `signer.Sign` or the JSON encoder returns an error.  When the
request carries a private key and is served alone, the bytes read on line 90 are
that key, of any length. -/
theorem c5_key_length_not_checked {Tx : Type} (lib : Lib Tx) (x : SignFields)
    (request : SignRequest) (env : Interference) (h : request.err = none) :
    (sign lib x request env).1.calls.take 2
      = [.pubKey ⟨(seen x request env).PrivateKey⟩,
         .sign ⟨(seen x request env).PrivateKey⟩
           [Msg.signData (lib.address (lib.pubKey ⟨(seen x request env).PrivateKey⟩))
             (seen x request env).Data]] ∧
    signCalls (sign lib x request env).1.calls
      = [(⟨(seen x request env).PrivateKey⟩,
          [Msg.signData (lib.address (lib.pubKey ⟨(seen x request env).PrivateKey⟩))
            (seen x request env).Data])] ∧
    ((sign lib x request env).1.w.status = some statusBadRequest ↔
      (∃ e, lib.signerSign ⟨(seen x request env).PrivateKey⟩
          [Msg.signData (lib.address (lib.pubKey ⟨(seen x request env).PrivateKey⟩))
            (seen x request env).Data] = .error e) ∨
      ∃ tx e, lib.signerSign ⟨(seen x request env).PrivateKey⟩
          [Msg.signData (lib.address (lib.pubKey ⟨(seen x request env).PrivateKey⟩))
            (seen x request env).Data] = .ok tx ∧
        lib.txJSONEncoder tx = .error e) ∧
    (∀ K, request.private_key = some K →
      (seen x request Interference.none).PrivateKey = K) := by
  refine ⟨?_, signCalls_sign lib x request env h, ?_, ?_⟩
  · rw [sign_decoded lib x request env h]
    cases hs : lib.signerSign ⟨(seen x request env).PrivateKey⟩
        [Msg.signData (lib.address (lib.pubKey ⟨(seen x request env).PrivateKey⟩))
          (seen x request env).Data] with
    | error e => rw [signDecoded_sign_error lib _ e hs]; rfl
    | ok tx =>
      cases he : lib.txJSONEncoder tx with
      | error e => rw [signDecoded_encode_error lib _ tx e hs he]; rfl
      | ok b => rw [signDecoded_ok lib _ tx b hs he]; rfl
  · rw [sign_decoded lib x request env h]
    cases hs : lib.signerSign ⟨(seen x request env).PrivateKey⟩
        [Msg.signData (lib.address (lib.pubKey ⟨(seen x request env).PrivateKey⟩))
          (seen x request env).Data] with
    | error e =>
      rw [signDecoded_sign_error lib _ e hs]
      simp [failWith_status]
    | ok tx =>
      cases he : lib.txJSONEncoder tx with
      | error e =>
        rw [signDecoded_encode_error lib _ tx e hs he]
        simp [failWith_status, he]
      | ok b =>
        rw [signDecoded_ok lib _ tx b hs he]
        simp [he, statusOK, statusBadRequest]
  · intro K hK
    simp [seen_none, decodeInto, hK]

/-- C5 (amended) at a concrete input: the toy library and a 31-byte key, served
alone. -/
theorem c5_key_length_not_checked_witness :
    signCalls (sign toyLib SignFields.zero ⟨some key31, some (ascii "hello"), none⟩
        Interference.none).1.calls
      = [(⟨key31⟩, [Msg.signData [31, 7] (ascii "hello")])] ∧
    (seen SignFields.zero ⟨some key31, some (ascii "hello"), none⟩
        Interference.none).PrivateKey = key31 :=
  ⟨(c5_key_length_not_checked toyLib SignFields.zero
      ⟨some key31, some (ascii "hello"), none⟩ Interference.none rfl).2.1,
   (c5_key_length_not_checked toyLib SignFields.zero
      ⟨some key31, some (ascii "hello"), none⟩ Interference.none rfl).2.2.2 key31 rfl⟩

/-- C6 (the code departs from the claim): a request with empty data is answered
with a signed envelope when another request's `Decode` lands between this
request's `Decode` (line 85) and its read of `x.Data` (line 92).  The signer of
the toy library rejects empty data, and served alone the request gets status 400;
with the other request's store in between it gets status 200 and an envelope for
the other request's data. -/
theorem c6_empty_payload_signed_with_other_data :
    SignerRejectsEmpty toyLib ∧
    (sign toyLib SignFields.zero ⟨some key32, some [], none⟩ Interference.none).1.w
      = ⟨some statusBadRequest, 123 :: 1 :: ascii "empty"⟩ ∧
    (sign toyLib SignFields.zero ⟨some key32, some [], none⟩
        ⟨[⟨some otherKey32, some (ascii "other"), none⟩], []⟩).1.w
      = ⟨some statusOK, 123 :: 32 :: 9 :: ascii "other"⟩ ∧
    (sign toyLib SignFields.zero ⟨some key32, some [], none⟩
        ⟨[], [⟨none, some (ascii "other"), none⟩]⟩).1.w
      = ⟨some statusOK, 123 :: 32 :: 7 :: ascii "other"⟩ :=
  ⟨toyLib_rejectsEmpty, by decide, by decide, by decide⟩

/-- C7 (the code departs from the claim): the sign handler keeps the fields of
earlier requests.  A request that carries data "b" and no private key is answered
differently after no request and after one request that carried a 32-byte key: in
the second history `signer.Sign` is called with the key of the earlier request, and
that key is still in the captured variable after the earlier response is written. -/
theorem c7_sign_keeps_earlier_key :
    (signAfter toyLib [] ⟨none, some (ascii "b"), none⟩).w
      = ⟨some statusOK, 123 :: 0 :: 0 :: ascii "b"⟩ ∧
    (signAfter toyLib [⟨some key32, some (ascii "a"), none⟩] ⟨none, some (ascii "b"), none⟩).w
      = ⟨some statusOK, 123 :: 32 :: 7 :: ascii "b"⟩ ∧
    signCalls
      (signAfter toyLib [⟨some key32, some (ascii "a"), none⟩]
        ⟨none, some (ascii "b"), none⟩).calls
      = [(⟨key32⟩, [Msg.signData [32, 7] (ascii "b")])] ∧
    (stateAfter toyLib SignFields.zero [⟨some key32, some (ascii "a"), none⟩]).PrivateKey
      = key32 := by
  refine ⟨by decide, by decide, by decide, by decide⟩

/-- C8 (the code departs from the claim): `signer.Sign` is not always called with
the key and data of the request.  Served after a request that carried the data
"a", a request that decodes and carries a key but no data is signed with the data
"a"; and a request carrying a key and the data "hello" is signed with the key and
data of another request whose `Decode` lands before line 90, or with its own key
and the other request's data when the store lands between lines 90 and 92.  In
each run there is one call, with one message, whose address is that of the key
passed to `signer.Sign`. -/
theorem c8_sign_called_with_other_fields :
    signCalls (signAfter toyLib [⟨some key32, some (ascii "a"), none⟩]
        ⟨some otherKey32, none, none⟩).calls
      = [(⟨otherKey32⟩,
          [Msg.signData (toyLib.address (toyLib.pubKey ⟨otherKey32⟩)) (ascii "a")])] ∧
    signCalls (sign toyLib SignFields.zero ⟨some key32, some (ascii "hello"), none⟩
        ⟨[⟨some otherKey32, some (ascii "other"), none⟩], []⟩).1.calls
      = [(⟨otherKey32⟩,
          [Msg.signData (toyLib.address (toyLib.pubKey ⟨otherKey32⟩)) (ascii "other")])] ∧
    signCalls (sign toyLib SignFields.zero ⟨some key32, some (ascii "hello"), none⟩
        ⟨[], [⟨none, some (ascii "other"), none⟩]⟩).1.calls
      = [(⟨key32⟩,
          [Msg.signData (toyLib.address (toyLib.pubKey ⟨key32⟩)) (ascii "other")])] :=
  ⟨by decide, by decide, by decide⟩

/-- C9: error responses have the documented shape.  On a writer with nothing
written, `writeError` sets status 400 for every error; for an error that is not an
`errors.Error` the body is exactly the string `e.Error()`; for an `errors.Error`
the body is its JSON serialisation, whenever `json.Marshal` returns one.  Each
failure path of the two handlers (body read, unknown content type, envelope
decode, verify; request decode, sign, encode) is `writeError(writer, e); return` on
the fresh writer, and the response is what `writeError` wrote; for the sign handler this holds for
every content of the shared variable, whatever other requests store into it. -/
theorem c9_error_response_shape {Tx : Type} (lib : Lib Tx) :
    (∀ w e, w.status = none → (writeError lib w e).1.status = some statusBadRequest) ∧
    (∀ w msg, w.status = none →
      writeError lib w (.other msg) = (⟨some statusBadRequest, w.body ++ msg⟩, false)) ∧
    (∀ w s b, w.status = none → lib.jsonMarshal s = .ok b →
      writeError lib w (.sdk s) = (⟨some statusBadRequest, w.body ++ b⟩, false)) ∧
    (∀ calls e, (failWith lib ResponseWriter.fresh calls e).w
      = (writeError lib ResponseWriter.fresh e).1) ∧
    (∀ ct e, verify lib ⟨.error e, ct⟩ = failWith lib ResponseWriter.fresh [] e) ∧
    (∀ b ct, ct ≠ headerContentTypeJSON → ct ≠ headerContentTypeProto →
      verify lib ⟨.ok b, ct⟩ = failWith lib ResponseWriter.fresh [] (unknownContentType ct)) ∧
    (∀ b ct e, ct = headerContentTypeJSON ∨ ct = headerContentTypeProto →
      lib.txJSONDecoder b = .error e →
      verify lib ⟨.ok b, ct⟩ = failWith lib ResponseWriter.fresh [.txJSONDecoder b] e) ∧
    (∀ b ct tx e, ct = headerContentTypeJSON ∨ ct = headerContentTypeProto →
      lib.txJSONDecoder b = .ok tx → lib.verifierVerify tx = some e →
      verify lib ⟨.ok b, ct⟩
        = failWith lib ResponseWriter.fresh [.txJSONDecoder b, .verify tx] e) ∧
    (∀ x request env e, request.err = some e →
      (sign lib x request env).1 = failWith lib ResponseWriter.fresh [] e) ∧
    (∀ x request env e, request.err = none →
      lib.signerSign ⟨(seen x request env).PrivateKey⟩
        [Msg.signData (lib.address (lib.pubKey ⟨(seen x request env).PrivateKey⟩))
          (seen x request env).Data] = .error e →
      ∃ calls, (sign lib x request env).1 = failWith lib ResponseWriter.fresh calls e) ∧
    (∀ x request env tx e, request.err = none →
      lib.signerSign ⟨(seen x request env).PrivateKey⟩
        [Msg.signData (lib.address (lib.pubKey ⟨(seen x request env).PrivateKey⟩))
          (seen x request env).Data] = .ok tx →
      lib.txJSONEncoder tx = .error e →
      ∃ calls, (sign lib x request env).1 = failWith lib ResponseWriter.fresh calls e) := by
  refine ⟨?_, ?_, ?_, ?_, ?_, ?_, ?_, ?_, ?_, ?_, ?_⟩
  · intro w e hw
    exact writeError_status lib w e hw
  · intro w msg hw
    simp [writeError, ResponseWriter.writeHeader, ResponseWriter.write, hw]
  · intro w s b hw hb
    simp [writeError, ResponseWriter.writeHeader, ResponseWriter.write, hw, hb]
  · intro calls e
    rfl
  · intro ct e
    rfl
  · intro b ct h1 h2
    exact verify_unknown lib b ct h1 h2
  · intro b ct e hk hd
    rw [verify_known lib b ct hk, hd]
  · intro b ct tx e hk hd hv
    rw [verify_known lib b ct hk, hd]
    simp only [hv]
  · intro x request env e he
    rw [sign_decode_error lib x request env e he]
  · intro x request env e he hs
    rw [sign_decoded lib x request env he, signDecoded_sign_error lib _ e hs]
    exact ⟨_, rfl⟩
  · intro x request env tx e he hs hen
    rw [sign_decoded lib x request env he, signDecoded_encode_error lib _ tx e hs hen]
    exact ⟨_, rfl⟩

/-- C9 at concrete inputs: in the toy library, a structured error and a plain
error written to the fresh writer. -/
theorem c9_error_response_shape_witness :
    writeError toyLib ResponseWriter.fresh (.sdk ⟨1, ascii "empty"⟩)
      = (⟨some statusBadRequest, 123 :: 1 :: ascii "empty"⟩, false) ∧
    writeError toyLib ResponseWriter.fresh (.other (ascii "EOF"))
      = (⟨some statusBadRequest, ascii "EOF"⟩, false) :=
  ⟨(c9_error_response_shape toyLib).2.2.1 ResponseWriter.fresh ⟨1, ascii "empty"⟩
      (123 :: 1 :: ascii "empty") rfl rfl,
    (c9_error_response_shape toyLib).2.1 ResponseWriter.fresh (ascii "EOF") rfl⟩

end Adr036
